import Mathlib

/-!
Verification of the daily-reset and task-state reconciliation core of the
focus_tasks widget (src/app.js).  The JavaScript core is shallowly embedded:
the process-global mutable `state` object, the `generateId` source of fresh
identifiers and the `localStorage` save log are threaded explicitly through a
`W` (world) value, and exceptions thrown by the JavaScript runtime
(`JSON.parse` on malformed input, property assignment on `undefined`) are
modelled with `Except`.  DOM rendering, the clock and event wiring are
presentation glue outside the core and are not modelled.
-/

namespace FocusTasks

/-- Task/template identifiers.  In the source these are strings: the seeded
default templates carry the literal ids `dt1`/`dt2`/`dt3`, while
`generateId()` (app.js:372) returns `'_' + Math.random().toString(36)...`,
a fresh random string.  §4.2 of the design treats identifiers generated in
one process lifetime as unique (collisions negligible), so the random
generator is modelled as a counter: successive calls yield the pairwise
distinct ids `Ident.gen 0, Ident.gen 1, …` in call order. -/
inductive Ident where
  | fixed : String → Ident
  | gen : Nat → Ident
deriving Repr, DecidableEq

/-- `generateId()` (app.js:372-374): fresh id plus advanced generator. -/
def generateId (g : Nat) : Ident × Nat := (Ident.gen g, g + 1)

/-- A concrete task instance: `{ id, text, completed, type, dateAdded }`
(app.js:17).  `type` is `"daily"` for routine-derived tasks and `"extra"`
for ad-hoc additions.  Calendar dates (`toDateString()` values) are plain
strings compared for equality, matching the source. -/
structure Task where
  id : Ident
  text : String
  completed : Bool
  type : String
  dateAdded : String
deriving Repr, DecidableEq

/-- A daily-routine template: `{ id, text, type: 'daily' }` (app.js:18).
The `type` field is carried explicitly because the instantiation spread
`{...t, ...}` copies it into the created task. -/
structure RoutineTemplate where
  id : Ident
  text : String
  type : String
deriving Repr, DecidableEq

/-- Display settings (app.js:19-24).  Only carried along; no claim depends on
their values beyond the defaults. -/
structure Settings where
  font : Nat
  timeFormat : String
  dateFormat : String
  themeColor : String
deriving Repr, DecidableEq

/-- The root application state (app.js:16-26). -/
structure AppState where
  tasks : List Task
  dailyRoutine : List RoutineTemplate
  settings : Settings
  lastOpenDate : Option String
deriving Repr, DecidableEq

/-- `DEFAULT_DAILY_TASKS` (app.js:9-13). -/
def DEFAULT_DAILY_TASKS : List RoutineTemplate :=
  [ { id := Ident.fixed "dt1", text := "Morning Stretch", type := "daily" },
    { id := Ident.fixed "dt2", text := "Read 15 Mins", type := "daily" },
    { id := Ident.fixed "dt3", text := "Clear Inbox", type := "daily" } ]

/-- The default settings literal (app.js:19-24). -/
def defaultSettings : Settings :=
  { font := 1, timeFormat := "12h", dateFormat := "Month", themeColor := "green" }

/-- The in-memory state the script starts with before `loadState` runs
(app.js:16-26): empty task list, empty routine, default settings,
`lastOpenDate: null`. -/
def initialState : AppState :=
  { tasks := [], dailyRoutine := [], settings := defaultSettings, lastOpenDate := none }

/-- A field of the persisted JSON object as `JSON.parse` can produce it: the
key may be absent from the object, hold JSON `null`, or hold a well-typed
value.  (Values of entirely wrong type are outside this typed model; the one
shape-violation behaviour a claim needs — a missing or null `dailyRoutine` —
is representable.) -/
inductive JField (α : Type) where
  | absent : JField α
  | null : JField α
  | val : α → JField α
deriving Repr, DecidableEq

/-- The shape of a successfully parsed stored blob: each AppState field may or
may not be present.  `tasks` and `settings` are only ever read when well
typed, so absence is the only alternative modelled for them. -/
structure SavedState where
  tasks : Option (List Task)
  dailyRoutine : JField (List RoutineTemplate)
  settings : Option Settings
  lastOpenDate : JField String
deriving Repr, DecidableEq

/-- The raw blob under the storage key: either text that `JSON.parse` rejects,
or a parsed object. -/
inductive Blob where
  | malformed : Blob
  | parsed : SavedState → Blob
deriving Repr, DecidableEq

/-- Exceptions the JavaScript runtime throws inside the core:
`JSON.parse` throws a `SyntaxError` on malformed input (app.js:90), and
assigning `.text` on `undefined` throws a `TypeError` (app.js:275). -/
inductive JsError where
  | syntaxError : JsError
  | typeError : JsError
deriving Repr, DecidableEq

/-- The explicit world threaded through every operation: the global `state`,
the id-generator counter, and the log of `saveState()` calls in order (each
entry is the full state serialized at that moment, app.js:111-113). -/
structure W where
  state : AppState
  gen : Nat
  saved : List AppState
deriving Repr, DecidableEq

/-- `saveState()` (app.js:111-113): append the current full state to the
persistence log. -/
def saveState (w : W) : W :=
  { w with saved := w.saved ++ [w.state] }

/-- JavaScript `String.prototype.trim`: strip leading and trailing whitespace.
(An executable model of `.trim()`; the claims only distinguish empty from
non-empty trimmed results, so Unicode-whitespace subtleties are moot.) -/
def jsTrim (s : String) : String :=
  String.mk (((s.data.dropWhile Char.isWhitespace).reverse.dropWhile
    Char.isWhitespace).reverse)

/-- The task-instantiation map shared verbatim by the three call sites
(app.js:74-79 backfill, 101-106 first run, 131-136 reset):
`routine.map(t => ({ ...t, id: generateId(), completed: false, dateAdded: d }))`.
The spread copies the template's `text` and `type`; `id`, `completed` and
`dateAdded` are overridden.  `generateId` is called once per element, left to
right, so the counter threads through the list. -/
def instantiateAll : List RoutineTemplate → String → Nat → List Task × Nat
  | [], _, g => ([], g)
  | r :: rest, d, g =>
      let (i, g1) := generateId g
      let (ts, g2) := instantiateAll rest d g1
      ({ id := i, text := r.text, completed := false, type := r.type,
         dateAdded := d } :: ts, g2)

/-- The `dailyRoutine` value after `state = { ...state, ...saved }` followed by
`if (!state.dailyRoutine) state.dailyRoutine = [...DEFAULT_DAILY_TASKS]`
(app.js:91-94).  If the key is absent, the spread keeps the in-memory default
(an array, hence truthy in JavaScript even when empty — `![]` is `false` — so
the repair guard does NOT fire).  If the key holds `null`, `!null` is `true`
and the defaults are merged.  If the key holds an array, `![...]` is `false`
and the stored value is kept as is. -/
def mergedRoutine (saved : JField (List RoutineTemplate))
    (dflt : List RoutineTemplate) : List RoutineTemplate :=
  match saved with
  | JField.absent => dflt
  | JField.null => DEFAULT_DAILY_TASKS
  | JField.val xs => xs

/-- The `lastOpenDate` value after the spread: an absent key keeps the
in-memory default, `null` and a stored string take the stored value. -/
def mergedLastOpen (saved : JField String) (dflt : Option String) : Option String :=
  match saved with
  | JField.absent => dflt
  | JField.null => none
  | JField.val s => some s

/-- `loadState()` (app.js:87-109).  `raw = none` models
`localStorage.getItem` returning `null` (first run): the routine is seeded
with the defaults, `lastOpenDate` set to today, one task instantiated per
default template, and the state saved.  `raw = some blob` models stored data:
malformed data makes `JSON.parse` throw a `SyntaxError` which nothing in the
source catches, so `loadState` propagates it; parsed data is merged over the
in-memory defaults field by field (object spread), then the falsy-routine
repair runs. -/
def loadState (raw : Option Blob) (today : String) (w : W) : Except JsError W :=
  match raw with
  | some Blob.malformed => Except.error JsError.syntaxError
  | some (Blob.parsed saved) =>
      let merged : AppState :=
        { tasks := saved.tasks.getD w.state.tasks,
          dailyRoutine := mergedRoutine saved.dailyRoutine w.state.dailyRoutine,
          settings := saved.settings.getD w.state.settings,
          lastOpenDate := mergedLastOpen saved.lastOpenDate w.state.lastOpenDate }
      Except.ok { w with state := merged }
  | none =>
      let routine := DEFAULT_DAILY_TASKS
      let (tasks, g2) := instantiateAll routine today w.gen
      let st : AppState :=
        { tasks := tasks, dailyRoutine := routine, settings := w.state.settings,
          lastOpenDate := some today }
      Except.ok (saveState { state := st, gen := g2, saved := w.saved })

/-- `performDailyReset(todayDate)` (app.js:125-143): regenerate one fresh task
per current routine template, replace the whole task list, set
`lastOpenDate`, save. -/
def performDailyReset (todayDate : String) (w : W) : W :=
  let (newDailyTasks, g2) := instantiateAll w.state.dailyRoutine todayDate w.gen
  saveState
    { state := { w.state with tasks := newDailyTasks, lastOpenDate := some todayDate },
      gen := g2, saved := w.saved }

/-- `checkMidnightReset()` (app.js:116-123): reset exactly when the stored
last-open date differs from today (`state.lastOpenDate !== today`; a `null`
`lastOpenDate` also differs). -/
def checkMidnightReset (today : String) (w : W) : W :=
  if w.state.lastOpenDate ≠ some today then performDailyReset today w else w

/-- `ensureDailyTasks()` (app.js:69-84): if no task has `type === 'daily'` and
the routine is non-empty, instantiate the routine and prepend the fresh tasks
to the existing list, then save. -/
def ensureDailyTasks (today : String) (w : W) : W :=
  let hasDailyTasks := w.state.tasks.any fun t => decide (t.type = "daily")
  if !hasDailyTasks && decide (0 < w.state.dailyRoutine.length) then
    let (dailyTasksToAdd, g2) := instantiateAll w.state.dailyRoutine today w.gen
    saveState
      { state := { w.state with tasks := dailyTasksToAdd ++ w.state.tasks },
        gen := g2, saved := w.saved }
  else w

/-- The startup reconciliation performed by `init()` after the state is
loaded (app.js:48-67): the midnight-reset check followed by the backfill
check.  (The rendering calls between them do not touch AppState.) -/
def reconcile (today : String) (w : W) : W :=
  ensureDailyTasks today (checkMidnightReset today w)

/-- The state-relevant part of `init()` (app.js:48-67): load (or bootstrap)
the state, then reconcile.  An exception escaping `loadState` aborts `init`. -/
def init (raw : Option Blob) (today : String) (w : W) : Except JsError W :=
  match loadState raw today w with
  | Except.error e => Except.error e
  | Except.ok w1 => Except.ok (reconcile today w1)

/-- `addTask(text)` (app.js:248-261): no-op on whitespace-only text, else
append a fresh `extra` task and save. -/
def addTask (text : String) (today : String) (w : W) : W :=
  if jsTrim text = "" then w
  else
    let (i, g2) := generateId w.gen
    saveState
      { state := { w.state with tasks := w.state.tasks ++
          [{ id := i, text := jsTrim text, completed := false, type := "extra",
             dateAdded := today }] },
        gen := g2, saved := w.saved }

/-- The in-place mutation performed by `toggleTask` when `find` succeeds: the
first task whose id matches has its `completed` flag flipped; every other
element, and every position, is untouched. -/
def toggleFirst (i : Ident) : List Task → List Task
  | [] => []
  | t :: ts =>
      if t.id = i then { t with completed := !t.completed } :: ts
      else t :: toggleFirst i ts

/-- `toggleTask(id)` (app.js:263-270): `find` the first matching task; if
found, flip its `completed` in place and save; otherwise do nothing. -/
def toggleTask (i : Ident) (w : W) : W :=
  match w.state.tasks.find? (fun t => decide (t.id = i)) with
  | some _ => saveState { w with state :=
      { w.state with tasks := toggleFirst i w.state.tasks } }
  | none => w

/-- `updateDailyTask(index, newText)` (app.js:273-278): if the trimmed text is
empty (falsy) the function returns without doing anything.  Otherwise it
executes `state.dailyRoutine[index].text = newText.trim()`: at a valid index
this replaces the template's text and saves; at an out-of-range index
`state.dailyRoutine[index]` is `undefined` and the assignment throws a
`TypeError`, which nothing catches. -/
def updateDailyTask (index : Nat) (newText : String) (w : W) : Except JsError W :=
  if jsTrim newText = "" then Except.ok w
  else
    match w.state.dailyRoutine.get? index with
    | none => Except.error JsError.typeError
    | some t =>
        Except.ok (saveState { w with state := { w.state with
          dailyRoutine := w.state.dailyRoutine.set index { t with text := jsTrim newText } } })

/-- `removeDailyTask(index)` (app.js:280-284): `splice(index, 1)` removes the
template at `index` (silently removing nothing when out of range) and saves
unconditionally. -/
def removeDailyTask (index : Nat) (w : W) : W :=
  saveState { w with state := { w.state with
    dailyRoutine := w.state.dailyRoutine.eraseIdx index } }

/-- `addDailyTemplate()` (app.js:286-295): append a fresh empty template and
save. -/
def addDailyTemplate (w : W) : W :=
  let (i, g2) := generateId w.gen
  saveState
    { state := { w.state with dailyRoutine := w.state.dailyRoutine ++
        [{ id := i, text := "", type := "daily" }] },
      gen := g2, saved := w.saved }

/-- An identifier already in use before the generator counter reached `g`:
either one of the fixed seed ids or a generated id below the counter.  Every
id present in a state the process produced satisfies this for the current
counter, since `generateId` hands out counter values in increasing order. -/
def idStale (g : Nat) : Ident → Prop
  | Ident.fixed _ => True
  | Ident.gen k => k < g

instance (g : Nat) (i : Ident) : Decidable (idStale g i) := by
  cases i <;> simp [idStale] <;> infer_instance

/-- A concrete world for instantiating theorems: the spec's §8 scenario — one
completed extra task from the previous day, one routine template, last open
date Mon Jan 01 2024. -/
def exampleResetW : W :=
  { state :=
      { tasks := [{ id := Ident.fixed "t1", text := "Buy milk", completed := true,
                    type := "extra", dateAdded := "Mon Jan 01 2024" }],
        dailyRoutine := [{ id := Ident.fixed "r1", text := "Stretch", type := "daily" }],
        settings := defaultSettings,
        lastOpenDate := some "Mon Jan 01 2024" },
    gen := 0, saved := [] }

/-- A concrete world for instantiating theorems: one extra task only (no
daily instances), one routine template, already opened today
(Tue Jan 02 2024). -/
def exampleSameDayW : W :=
  { state :=
      { tasks := [{ id := Ident.fixed "t1", text := "Buy milk", completed := false,
                    type := "extra", dateAdded := "Tue Jan 02 2024" }],
        dailyRoutine := [{ id := Ident.fixed "r1", text := "Stretch", type := "daily" }],
        settings := defaultSettings,
        lastOpenDate := some "Tue Jan 02 2024" },
    gen := 0, saved := [] }

/-! ### Helper lemmas about the embedded operations -/

theorem instantiateAll_cons (r : RoutineTemplate) (rest : List RoutineTemplate)
    (d : String) (g : Nat) :
    instantiateAll (r :: rest) d g =
      (({ id := Ident.gen g, text := r.text, completed := false, type := r.type,
          dateAdded := d } : Task) :: (instantiateAll rest d (g + 1)).1,
        (instantiateAll rest d (g + 1)).2) := rfl

theorem instantiateAll_fst_length (rs : List RoutineTemplate) (d : String) (g : Nat) :
    (instantiateAll rs d g).1.length = rs.length := by
  induction rs generalizing g with
  | nil => rfl
  | cons r rest ih => rw [instantiateAll_cons]; simp [ih]

theorem instantiateAll_get? (rs : List RoutineTemplate) (d : String) (g i : Nat) :
    (instantiateAll rs d g).1.get? i =
      (rs.get? i).map fun r =>
        { id := Ident.gen (g + i), text := r.text, completed := false,
          type := r.type, dateAdded := d } := by
  induction rs generalizing g i with
  | nil => simp [instantiateAll]
  | cons r rest ih =>
      cases i with
      | zero => rw [instantiateAll_cons]; rfl
      | succ j =>
          rw [instantiateAll_cons]
          have hg : g + (j + 1) = (g + 1) + j := by omega
          simpa [hg] using ih (g + 1) j

theorem instantiateAll_mem_id (rs : List RoutineTemplate) (d : String) (g : Nat) :
    ∀ t ∈ (instantiateAll rs d g).1, ∃ k, g ≤ k ∧ t.id = Ident.gen k := by
  induction rs generalizing g with
  | nil => intro t ht; simp [instantiateAll] at ht
  | cons r rest ih =>
      intro t ht
      rw [instantiateAll_cons] at ht
      rcases List.mem_cons.mp ht with h | h
      · exact ⟨g, le_refl g, by rw [h]⟩
      · rcases ih (g + 1) t h with ⟨k, hk, hid⟩
        exact ⟨k, by omega, hid⟩

theorem instantiateAll_any_daily (rs : List RoutineTemplate) (d : String) (g : Nat)
    (htype : ∀ r ∈ rs, r.type = "daily") (hne : rs ≠ []) :
    ((instantiateAll rs d g).1.any fun t => decide (t.type = "daily")) = true := by
  cases rs with
  | nil => exact absurd rfl hne
  | cons r rest =>
      rw [instantiateAll_cons]
      have hr : r.type = "daily" := htype r (List.mem_cons_self r rest)
      simp [List.any_cons, hr]

theorem checkMidnightReset_noop (today : String) (w : W)
    (h : w.state.lastOpenDate = some today) :
    checkMidnightReset today w = w := by
  simp [checkMidnightReset, h]

theorem checkMidnightReset_fires (today : String) (w : W)
    (h : w.state.lastOpenDate ≠ some today) :
    checkMidnightReset today w = performDailyReset today w := by
  simp [checkMidnightReset, h]

theorem ensureDailyTasks_noop_hasDaily (today : String) (w : W)
    (h : (w.state.tasks.any fun t => decide (t.type = "daily")) = true) :
    ensureDailyTasks today w = w := by
  simp [ensureDailyTasks, h]

theorem ensureDailyTasks_noop_emptyRoutine (today : String) (w : W)
    (h : w.state.dailyRoutine = []) :
    ensureDailyTasks today w = w := by
  simp [ensureDailyTasks, h]

theorem ensureDailyTasks_fires (today : String) (w : W)
    (h1 : (w.state.tasks.any fun t => decide (t.type = "daily")) = false)
    (h2 : 0 < w.state.dailyRoutine.length) :
    ensureDailyTasks today w =
      saveState
        { state := { w.state with
            tasks := (instantiateAll w.state.dailyRoutine today w.gen).1
              ++ w.state.tasks },
          gen := (instantiateAll w.state.dailyRoutine today w.gen).2,
          saved := w.saved } := by
  simp [ensureDailyTasks, h1, h2]

theorem performDailyReset_eq (todayDate : String) (w : W) :
    performDailyReset todayDate w =
      saveState
        { state := { w.state with
            tasks := (instantiateAll w.state.dailyRoutine todayDate w.gen).1,
            lastOpenDate := some todayDate },
          gen := (instantiateAll w.state.dailyRoutine todayDate w.gen).2,
          saved := w.saved } := rfl

theorem reconcile_dailyRoutine (today : String) (w : W) :
    (reconcile today w).state.dailyRoutine = w.state.dailyRoutine := by
  unfold reconcile checkMidnightReset ensureDailyTasks performDailyReset saveState
  by_cases h : w.state.lastOpenDate = some today <;>
    simp [h] <;> split <;> rfl

theorem toggleFirst_eq_of_forall_ne (i : Ident) (ts : List Task)
    (h : ∀ t ∈ ts, t.id ≠ i) : toggleFirst i ts = ts := by
  induction ts with
  | nil => rfl
  | cons t rest ih =>
      have ht : t.id ≠ i := h t (List.mem_cons_self t rest)
      simp [toggleFirst, ht]
      exact ih fun x hx => h x (List.mem_cons_of_mem t hx)

theorem toggleFirst_length (i : Ident) (ts : List Task) :
    (toggleFirst i ts).length = ts.length := by
  induction ts with
  | nil => rfl
  | cons t rest ih =>
      by_cases ht : t.id = i <;> simp [toggleFirst, ht, ih]

theorem toggleFirst_get?_nodup (i : Ident) (ts : List Task)
    (hnodup : (ts.map Task.id).Nodup) :
    ∀ k t, ts.get? k = some t →
      (toggleFirst i ts).get? k =
        some (if t.id = i then { t with completed := !t.completed } else t) := by
  induction ts with
  | nil => intro k t hk; simp at hk
  | cons hd rest ih =>
      intro k t hk
      have hnodup' : (rest.map Task.id).Nodup := (List.nodup_cons.mp hnodup).2
      have hhd : hd.id ∉ rest.map Task.id := (List.nodup_cons.mp hnodup).1
      cases k with
      | zero =>
          have hht : hd = t := by simpa using hk
          subst hht
          by_cases h : hd.id = i <;> simp [toggleFirst, h]
      | succ j =>
          simp only [List.get?] at hk
          by_cases h : hd.id = i
          · -- the head is the (unique) match: the tail is untouched and
            -- no tail element can match
            have htne : t.id ≠ i := by
              intro hti
              apply hhd
              have hmem : t ∈ rest := List.get?_mem hk
              have hmem2 : t.id ∈ rest.map Task.id :=
                List.mem_map_of_mem Task.id hmem
              rwa [hti, ← h] at hmem2
            have hk2 : rest[j]? = some t := by simpa using hk
            simp [toggleFirst, h, htne, hk2]
          · simp only [toggleFirst, h, if_false, List.get?]
            exact ih hnodup' j t hk

/-! ### Claim theorems -/

/-- Claim C2 (code bug in the source): a stored blob that fails to parse does
NOT fall back to the Absent-state bootstrap.  `JSON.parse` (app.js:90) throws
a `SyntaxError` that nothing in `loadState` or `init` catches, so the error
propagates out of startup as fatal, contrary to the spec's requirement that
malformed persisted state be recovered locally. -/
theorem loadState_malformed_raises :
    loadState (some Blob.malformed) "Mon Jan 01 2024"
        { state := initialState, gen := 0, saved := [] }
      = Except.error JsError.syntaxError ∧
    init (some Blob.malformed) "Mon Jan 01 2024"
        { state := initialState, gen := 0, saved := [] }
      = Except.error JsError.syntaxError := ⟨rfl, rfl⟩

/-- Claim C6 (code bug in the source): for a stored blob whose `dailyRoutine`
key is absent, the spread `{ ...state, ...saved }` keeps the in-memory
default `[]`, and the repair guard `if (!state.dailyRoutine)` does not fire
because an empty array is truthy in JavaScript; the default templates are NOT
merged, contrary to the claim and to the source's own comment
`// Merge defaults if missing` (app.js:93). -/
theorem loadState_absent_routine_not_repaired :
    (loadState (some (Blob.parsed
        { tasks := some [], dailyRoutine := JField.absent, settings := none,
          lastOpenDate := JField.val "Mon Jan 01 2024" }))
        "Tue Jan 02 2024" { state := initialState, gen := 0, saved := [] }).map
        (fun w => w.state.dailyRoutine)
      = Except.ok [] ∧
    DEFAULT_DAILY_TASKS ≠ [] := ⟨rfl, by decide⟩

/-- Claim C8: editing a routine template's text (`updateDailyTask`) or
removing a template (`removeDailyTask`) leaves the `tasks` list — hence every
existing task's id, text, completed flag and position — as well as the
settings and `lastOpenDate` completely unchanged; only `dailyRoutine` is
affected. -/
theorem template_ops_leave_tasks_unchanged
    (w : W) (idx : Nat) (newText : String) :
    (∀ w', updateDailyTask idx newText w = Except.ok w' →
        w'.state.tasks = w.state.tasks ∧
        w'.state.settings = w.state.settings ∧
        w'.state.lastOpenDate = w.state.lastOpenDate) ∧
    ((removeDailyTask idx w).state.tasks = w.state.tasks ∧
     (removeDailyTask idx w).state.settings = w.state.settings ∧
     (removeDailyTask idx w).state.lastOpenDate = w.state.lastOpenDate) := by
  constructor
  · intro w' h
    unfold updateDailyTask at h
    by_cases ht : jsTrim newText = ""
    · rw [if_pos ht] at h
      cases h
      exact ⟨rfl, rfl, rfl⟩
    · rw [if_neg ht] at h
      cases hg : w.state.dailyRoutine.get? idx with
      | none => rw [hg] at h; simp at h
      | some t => rw [hg] at h; cases h; exact ⟨rfl, rfl, rfl⟩
  · exact ⟨rfl, rfl, rfl⟩

/-- Witness for C8 at a concrete world: one extra task, one template;
updating template 0 and removing template 0 both leave the task list
untouched. -/
theorem template_ops_leave_tasks_unchanged_witness :
    (∀ w', updateDailyTask 0 "Focus"
        { state := { tasks := [{ id := Ident.fixed "t1", text := "Buy milk",
                                 completed := false, type := "extra",
                                 dateAdded := "Mon Jan 01 2024" }],
                     dailyRoutine := [{ id := Ident.fixed "r1", text := "Stretch",
                                        type := "daily" }],
                     settings := defaultSettings,
                     lastOpenDate := some "Mon Jan 01 2024" },
          gen := 5, saved := [] } = Except.ok w' →
        w'.state.tasks = [{ id := Ident.fixed "t1", text := "Buy milk",
                            completed := false, type := "extra",
                            dateAdded := "Mon Jan 01 2024" }] ∧
        w'.state.settings = defaultSettings ∧
        w'.state.lastOpenDate = some "Mon Jan 01 2024") ∧
    (removeDailyTask 0
        { state := { tasks := [{ id := Ident.fixed "t1", text := "Buy milk",
                                 completed := false, type := "extra",
                                 dateAdded := "Mon Jan 01 2024" }],
                     dailyRoutine := [{ id := Ident.fixed "r1", text := "Stretch",
                                        type := "daily" }],
                     settings := defaultSettings,
                     lastOpenDate := some "Mon Jan 01 2024" },
          gen := 5, saved := [] }).state.tasks
      = [{ id := Ident.fixed "t1", text := "Buy milk", completed := false,
           type := "extra", dateAdded := "Mon Jan 01 2024" }] :=
  ⟨(template_ops_leave_tasks_unchanged _ 0 "Focus").1,
   (template_ops_leave_tasks_unchanged _ 0 "Focus").2.1⟩

/-- Claim C9: `toggleTask` flips exactly the `completed` flag of the task
whose id matches (ids being unique per invariant I2), keeps every task at its
original index, and is a silent no-op — world completely unchanged, no save,
no error — when no task matches. -/
theorem toggleTask_flips_in_place
    (w : W) (i : Ident)
    (hnodup : (w.state.tasks.map Task.id).Nodup) :
    ((∀ t ∈ w.state.tasks, t.id ≠ i) → toggleTask i w = w) ∧
    (toggleTask i w).state.tasks.length = w.state.tasks.length ∧
    (∀ k t, w.state.tasks.get? k = some t →
      (toggleTask i w).state.tasks.get? k =
        some (if t.id = i then { t with completed := !t.completed } else t)) := by
  refine ⟨?_, ?_, ?_⟩
  · intro hne
    have hfind : w.state.tasks.find? (fun t => decide (t.id = i)) = none :=
      List.find?_eq_none.mpr (by intro x hx; simpa using hne x hx)
    simp [toggleTask, hfind]
  · unfold toggleTask
    cases hf : w.state.tasks.find? (fun t => decide (t.id = i)) with
    | none => rfl
    | some t0 => simp [saveState, toggleFirst_length]
  · intro k t hk
    unfold toggleTask
    cases hf : w.state.tasks.find? (fun t => decide (t.id = i)) with
    | none =>
        have hne : ∀ x ∈ w.state.tasks, x.id ≠ i := by
          intro x hx
          have hx2 := List.find?_eq_none.mp hf x hx
          simpa using hx2
        have hti : t.id ≠ i := hne t (List.get?_mem hk)
        simp only [if_neg hti]
        exact hk
    | some t0 =>
        have hres := toggleFirst_get?_nodup i w.state.tasks hnodup k t hk
        simpa [saveState] using hres

/-- Witness for C9 at a concrete world of two tasks with distinct ids:
toggling id `b` maps each position through the stated flip. -/
theorem toggleTask_flips_in_place_witness :
    (([{ id := Ident.fixed "a", text := "A", completed := false, type := "extra",
         dateAdded := "Mon" },
       { id := Ident.fixed "b", text := "B", completed := false, type := "extra",
         dateAdded := "Mon" }].map Task.id).Nodup) ∧
    (∀ k t, ([{ id := Ident.fixed "a", text := "A", completed := false,
                type := "extra", dateAdded := "Mon" },
              { id := Ident.fixed "b", text := "B", completed := false,
                type := "extra", dateAdded := "Mon" }] : List Task).get? k
          = some t →
      (toggleTask (Ident.fixed "b")
          { state := { tasks := [{ id := Ident.fixed "a", text := "A",
                                   completed := false, type := "extra",
                                   dateAdded := "Mon" },
                                 { id := Ident.fixed "b", text := "B",
                                   completed := false, type := "extra",
                                   dateAdded := "Mon" }],
                       dailyRoutine := [], settings := defaultSettings,
                       lastOpenDate := some "Mon" },
            gen := 0, saved := [] }).state.tasks.get? k =
        some (if t.id = Ident.fixed "b"
              then { t with completed := !t.completed } else t)) :=
  ⟨by decide,
   (toggleTask_flips_in_place
     { state := { tasks := [{ id := Ident.fixed "a", text := "A",
                              completed := false, type := "extra",
                              dateAdded := "Mon" },
                            { id := Ident.fixed "b", text := "B",
                              completed := false, type := "extra",
                              dateAdded := "Mon" }],
                  dailyRoutine := [], settings := defaultSettings,
                  lastOpenDate := some "Mon" },
       gen := 0, saved := [] } (Ident.fixed "b") (by decide)).2.2⟩

/-- Claim C10 counterexample: `updateDailyTask` at an out-of-range index with
non-empty trimmed text does NOT complete silently — the assignment
`state.dailyRoutine[index].text = ...` on `undefined` raises a `TypeError`
(here: index 5 into an empty routine). -/
theorem updateDailyTask_out_of_range_raises :
    updateDailyTask 5 "Water plants"
        { state := initialState, gen := 0, saved := [] }
      = Except.error JsError.typeError := rfl

/-- Claim C10 amended: `updateDailyTask` with empty trimmed text is a silent
no-op for every index; with non-empty trimmed text it replaces the template's
text at a valid index (leaving `tasks` untouched), but at an out-of-range
index it raises a `TypeError` rather than being silently absorbed. -/
theorem updateDailyTask_cases
    (w : W) (idx : Nat) (newText : String) :
    (jsTrim newText = "" → updateDailyTask idx newText w = Except.ok w) ∧
    (∀ t, jsTrim newText ≠ "" → w.state.dailyRoutine.get? idx = some t →
      ∃ w', updateDailyTask idx newText w = Except.ok w' ∧
        w'.state.dailyRoutine =
          w.state.dailyRoutine.set idx { t with text := jsTrim newText } ∧
        w'.state.tasks = w.state.tasks) ∧
    (jsTrim newText ≠ "" → w.state.dailyRoutine.get? idx = none →
      updateDailyTask idx newText w = Except.error JsError.typeError) := by
  refine ⟨?_, ?_, ?_⟩
  · intro h
    simp [updateDailyTask, h]
  · intro t h hg
    rw [List.get?_eq_getElem?] at hg
    refine ⟨saveState { w with state := { w.state with
      dailyRoutine := w.state.dailyRoutine.set idx
        { t with text := jsTrim newText } } }, ?_, rfl, rfl⟩
    simp [updateDailyTask, h, hg]
  · intro h hg
    rw [List.get?_eq_getElem?] at hg
    simp [updateDailyTask, h, hg]

/-- Witness for C10's amended theorem at a concrete world with one template:
a valid-index edit replaces the text, an out-of-range edit raises. -/
theorem updateDailyTask_cases_witness :
    jsTrim "Focus" ≠ "" ∧
    (updateDailyTask 0 "Focus"
        { state :=
            { tasks := [],
              dailyRoutine := [{ id := Ident.fixed "r1", text := "Stretch", type := "daily" }],
              settings := defaultSettings,
              lastOpenDate := some "Mon" },
          gen := 0, saved := [] }).map (fun u => u.state.dailyRoutine)
      = Except.ok [{ id := Ident.fixed "r1", text := "Focus", type := "daily" }] ∧
    updateDailyTask 3 "Focus"
        { state :=
            { tasks := [],
              dailyRoutine := [{ id := Ident.fixed "r1", text := "Stretch", type := "daily" }],
              settings := defaultSettings,
              lastOpenDate := some "Mon" },
          gen := 0, saved := [] }
      = Except.error JsError.typeError := by
  refine ⟨by decide, ?_,
    (updateDailyTask_cases
      { state :=
          { tasks := [],
            dailyRoutine := [{ id := Ident.fixed "r1", text := "Stretch", type := "daily" }],
            settings := defaultSettings,
            lastOpenDate := some "Mon" },
        gen := 0, saved := [] } 3 "Focus").2.2 (by decide) rfl⟩
  obtain ⟨w', h1, h2, -⟩ :=
    (updateDailyTask_cases
      { state :=
          { tasks := [],
            dailyRoutine := [{ id := Ident.fixed "r1", text := "Stretch", type := "daily" }],
            settings := defaultSettings,
            lastOpenDate := some "Mon" },
        gen := 0, saved := [] } 0 "Focus").2.1
      { id := Ident.fixed "r1", text := "Stretch", type := "daily" }
      (by decide) rfl
  rw [h1]
  simp only [Except.map]
  rw [h2]
  exact congrArg Except.ok (by decide)

/-- Claim C1: when the persisted last-open date differs from today, startup
reconciliation replaces the entire tasks sequence with exactly one fresh task
per entry of the current dailyRoutine, in routine order, each with a fresh
identifier, completed = false, dateAdded = today and type = daily; no
previous task (extra or completed) survives, and lastOpenDate is set to
today.  Hypotheses: templates carry type "daily" (data-model invariant) and
every pre-existing id was issued before the current generator counter (§4.2
process-lifetime uniqueness of generated ids). -/
theorem reconcile_reset_replaces_all
    (w : W) (today : String)
    (hneq : w.state.lastOpenDate ≠ some today)
    (htype : ∀ r ∈ w.state.dailyRoutine, r.type = "daily")
    (hstale : ∀ t ∈ w.state.tasks, idStale w.gen t.id) :
    (reconcile today w).state.tasks.length = w.state.dailyRoutine.length ∧
    (∀ i r, w.state.dailyRoutine.get? i = some r →
      (reconcile today w).state.tasks.get? i =
        some { id := Ident.gen (w.gen + i), text := r.text, completed := false,
               type := "daily", dateAdded := today }) ∧
    (reconcile today w).state.lastOpenDate = some today ∧
    (∀ told ∈ w.state.tasks, told ∉ (reconcile today w).state.tasks) := by
  have hens : reconcile today w =
      ensureDailyTasks today (performDailyReset today w) := by
    rw [reconcile, checkMidnightReset_fires today w hneq]
  have hnoop : ensureDailyTasks today (performDailyReset today w)
      = performDailyReset today w := by
    cases hr : w.state.dailyRoutine with
    | nil =>
        apply ensureDailyTasks_noop_emptyRoutine
        show w.state.dailyRoutine = []
        exact hr
    | cons r rest =>
        apply ensureDailyTasks_noop_hasDaily
        show ((instantiateAll w.state.dailyRoutine today w.gen).1.any
          fun t => decide (t.type = "daily")) = true
        exact instantiateAll_any_daily _ _ _ htype (by rw [hr]; exact List.cons_ne_nil r rest)
  rw [hens, hnoop]
  refine ⟨?_, ?_, rfl, ?_⟩
  · exact instantiateAll_fst_length _ _ _
  · intro i r hg
    have hrt : r.type = "daily" := htype r (List.get?_mem hg)
    show (instantiateAll w.state.dailyRoutine today w.gen).1.get? i = _
    rw [instantiateAll_get?, hg]
    simp [hrt]
  · intro told hmem hmem2
    have hin : told ∈ (instantiateAll w.state.dailyRoutine today w.gen).1 := hmem2
    rcases instantiateAll_mem_id _ _ _ told hin with ⟨k, hk, hid⟩
    have hs := hstale told hmem
    rw [hid] at hs
    simp [idStale] at hs
    omega

/-- Witness for C1 at the spec's §8 scenario world. -/
theorem reconcile_reset_replaces_all_witness :
    (exampleResetW.state.lastOpenDate ≠ some "Tue Jan 02 2024") ∧
    (∀ r ∈ exampleResetW.state.dailyRoutine, r.type = "daily") ∧
    (∀ t ∈ exampleResetW.state.tasks, idStale exampleResetW.gen t.id) ∧
    (reconcile "Tue Jan 02 2024" exampleResetW).state.tasks.length
      = exampleResetW.state.dailyRoutine.length ∧
    (reconcile "Tue Jan 02 2024" exampleResetW).state.lastOpenDate
      = some "Tue Jan 02 2024" ∧
    (∀ told ∈ exampleResetW.state.tasks,
      told ∉ (reconcile "Tue Jan 02 2024" exampleResetW).state.tasks) :=
  ⟨by decide, by decide, by decide,
   (reconcile_reset_replaces_all exampleResetW "Tue Jan 02 2024"
     (by decide) (by decide) (by decide)).1,
   (reconcile_reset_replaces_all exampleResetW "Tue Jan 02 2024"
     (by decide) (by decide) (by decide)).2.2.1,
   (reconcile_reset_replaces_all exampleResetW "Tue Jan 02 2024"
     (by decide) (by decide) (by decide)).2.2.2⟩

/-- Claim C3: with zero daily-type tasks present, a non-empty routine and
lastOpenDate = today (so no reset fires), reconciliation produces the freshly
instantiated daily tasks (fresh ids, completed = false, dateAdded = today) in
routine order, followed by the original tasks unchanged and in their original
order. -/
theorem reconcile_backfill_prepends
    (w : W) (today : String)
    (hnodaily : ∀ t ∈ w.state.tasks, ¬ t.type = "daily")
    (hne : w.state.dailyRoutine ≠ [])
    (hdate : w.state.lastOpenDate = some today)
    (htype : ∀ r ∈ w.state.dailyRoutine, r.type = "daily") :
    (reconcile today w).state.tasks.length
        = w.state.dailyRoutine.length + w.state.tasks.length ∧
    (∀ i r, w.state.dailyRoutine.get? i = some r →
      (reconcile today w).state.tasks.get? i =
        some { id := Ident.gen (w.gen + i), text := r.text, completed := false,
               type := "daily", dateAdded := today }) ∧
    (∀ j, (reconcile today w).state.tasks.get?
          (w.state.dailyRoutine.length + j) = w.state.tasks.get? j) := by
  have hany : (w.state.tasks.any fun t => decide (t.type = "daily")) = false :=
    List.any_eq_false.mpr (by intro x hx; simpa using hnodaily x hx)
  have hrec : reconcile today w = ensureDailyTasks today w := by
    rw [reconcile, checkMidnightReset_noop today w hdate]
  have hlen0 : 0 < w.state.dailyRoutine.length := List.length_pos.mpr hne
  rw [hrec, ensureDailyTasks_fires today w hany hlen0]
  refine ⟨?_, ?_, ?_⟩
  · show ((instantiateAll w.state.dailyRoutine today w.gen).1
        ++ w.state.tasks).length = _
    rw [List.length_append, instantiateAll_fst_length]
  · intro i r hg
    have hi : i < (instantiateAll w.state.dailyRoutine today w.gen).1.length := by
      rw [instantiateAll_fst_length]
      exact (List.get?_eq_some.mp hg).1
    have hrt : r.type = "daily" := htype r (List.get?_mem hg)
    show ((instantiateAll w.state.dailyRoutine today w.gen).1
        ++ w.state.tasks).get? i = _
    rw [List.get?_append hi, instantiateAll_get?, hg]
    simp [hrt]
  · intro j
    have hge : (instantiateAll w.state.dailyRoutine today w.gen).1.length
        ≤ w.state.dailyRoutine.length + j := by
      rw [instantiateAll_fst_length]; omega
    show ((instantiateAll w.state.dailyRoutine today w.gen).1
        ++ w.state.tasks).get? (w.state.dailyRoutine.length + j) = _
    rw [List.get?_append_right hge, instantiateAll_fst_length]
    congr 1
    omega

/-- Witness for C3: the same-day world with only an extra task gets the
routine instance prepended and keeps the extra task at the first position
after the prefix. -/
theorem reconcile_backfill_prepends_witness :
    (∀ t ∈ exampleSameDayW.state.tasks, ¬ t.type = "daily") ∧
    exampleSameDayW.state.dailyRoutine ≠ [] ∧
    exampleSameDayW.state.lastOpenDate = some "Tue Jan 02 2024" ∧
    (reconcile "Tue Jan 02 2024" exampleSameDayW).state.tasks.length
      = exampleSameDayW.state.dailyRoutine.length
        + exampleSameDayW.state.tasks.length ∧
    (reconcile "Tue Jan 02 2024" exampleSameDayW).state.tasks.get?
        (exampleSameDayW.state.dailyRoutine.length + 0)
      = exampleSameDayW.state.tasks.get? 0 :=
  ⟨by decide, by decide, by decide,
   (reconcile_backfill_prepends exampleSameDayW "Tue Jan 02 2024"
     (by decide) (by decide) (by decide) (by decide)).1,
   (reconcile_backfill_prepends exampleSameDayW "Tue Jan 02 2024"
     (by decide) (by decide) (by decide) (by decide)).2.2 0⟩

/-- Claim C5: when lastOpenDate already equals today, the full startup
reconciliation (reset check then backfill check) is idempotent: running it a
second time changes nothing at all — no reset, no backfill duplication, no
extra save.  (Templates carry type "daily" per the data model.) -/
theorem reconcile_idempotent_same_day
    (w : W) (today : String)
    (hdate : w.state.lastOpenDate = some today)
    (htype : ∀ r ∈ w.state.dailyRoutine, r.type = "daily") :
    reconcile today (reconcile today w) = reconcile today w := by
  have h1 : reconcile today w = ensureDailyTasks today w := by
    rw [reconcile, checkMidnightReset_noop today w hdate]
  by_cases hany : (w.state.tasks.any fun t => decide (t.type = "daily")) = true
  · have hno : ensureDailyTasks today w = w :=
      ensureDailyTasks_noop_hasDaily today w hany
    rw [h1, hno, h1, hno]
  · have hany' : (w.state.tasks.any fun t => decide (t.type = "daily")) = false := by
      revert hany
      cases w.state.tasks.any fun t => decide (t.type = "daily") <;> simp
    by_cases hlen : 0 < w.state.dailyRoutine.length
    · have hfire := ensureDailyTasks_fires today w hany' hlen
      have hne : w.state.dailyRoutine ≠ [] := by
        intro hnil
        rw [hnil] at hlen
        simp at hlen
      have hany2 : ((ensureDailyTasks today w).state.tasks.any
          fun t => decide (t.type = "daily")) = true := by
        rw [hfire]
        show (((instantiateAll w.state.dailyRoutine today w.gen).1
            ++ w.state.tasks).any fun t => decide (t.type = "daily")) = true
        rw [List.any_append, instantiateAll_any_daily _ _ _ htype hne]
        rfl
      have hdate1 : (ensureDailyTasks today w).state.lastOpenDate = some today := by
        rw [hfire]
        exact hdate
      rw [h1, reconcile, checkMidnightReset_noop today _ hdate1,
        ensureDailyTasks_noop_hasDaily today _ hany2]
    · have hemp : w.state.dailyRoutine = [] :=
        List.length_eq_zero.mp (by omega)
      have hno : ensureDailyTasks today w = w :=
        ensureDailyTasks_noop_emptyRoutine today w hemp
      rw [h1, hno, h1, hno]

/-- Witness for C5 at the same-day world. -/
theorem reconcile_idempotent_same_day_witness :
    exampleSameDayW.state.lastOpenDate = some "Tue Jan 02 2024" ∧
    (∀ r ∈ exampleSameDayW.state.dailyRoutine, r.type = "daily") ∧
    reconcile "Tue Jan 02 2024" (reconcile "Tue Jan 02 2024" exampleSameDayW)
      = reconcile "Tue Jan 02 2024" exampleSameDayW :=
  ⟨by decide, by decide,
   reconcile_idempotent_same_day exampleSameDayW "Tue Jan 02 2024"
     (by decide) (by decide)⟩

/-- Claim C4: with no prior persisted state, initialization seeds
dailyRoutine with the fixed non-empty default templates, sets lastOpenDate to
today, populates tasks with exactly one fresh instance per default template
in template order (fresh id, completed = false, dateAdded = today,
type = daily), and persists the full state exactly once: the save log holds a
single entry equal to the final state. -/
theorem init_bootstrap (today : String) (g : Nat) :
    init none today { state := initialState, gen := g, saved := [] } =
      Except.ok
        { state :=
            { tasks :=
                [ { id := Ident.gen g, text := "Morning Stretch",
                    completed := false, type := "daily", dateAdded := today },
                  { id := Ident.gen (g + 1), text := "Read 15 Mins",
                    completed := false, type := "daily", dateAdded := today },
                  { id := Ident.gen (g + 2), text := "Clear Inbox",
                    completed := false, type := "daily", dateAdded := today } ],
              dailyRoutine := DEFAULT_DAILY_TASKS,
              settings := defaultSettings,
              lastOpenDate := some today },
          gen := g + 3,
          saved :=
            [ { tasks :=
                  [ { id := Ident.gen g, text := "Morning Stretch",
                      completed := false, type := "daily", dateAdded := today },
                    { id := Ident.gen (g + 1), text := "Read 15 Mins",
                      completed := false, type := "daily", dateAdded := today },
                    { id := Ident.gen (g + 2), text := "Clear Inbox",
                      completed := false, type := "daily", dateAdded := today } ],
                dailyRoutine := DEFAULT_DAILY_TASKS,
                settings := defaultSettings,
                lastOpenDate := some today } ] } ∧
    DEFAULT_DAILY_TASKS ≠ [] := by
  constructor
  · show Except.ok (reconcile today
        { state :=
            { tasks :=
                [ { id := Ident.gen g, text := "Morning Stretch",
                    completed := false, type := "daily", dateAdded := today },
                  { id := Ident.gen (g + 1), text := "Read 15 Mins",
                    completed := false, type := "daily", dateAdded := today },
                  { id := Ident.gen (g + 2), text := "Clear Inbox",
                    completed := false, type := "daily", dateAdded := today } ],
              dailyRoutine := DEFAULT_DAILY_TASKS,
              settings := defaultSettings,
              lastOpenDate := some today },
          gen := g + 3,
          saved :=
            [ { tasks :=
                  [ { id := Ident.gen g, text := "Morning Stretch",
                      completed := false, type := "daily", dateAdded := today },
                    { id := Ident.gen (g + 1), text := "Read 15 Mins",
                      completed := false, type := "daily", dateAdded := today },
                    { id := Ident.gen (g + 2), text := "Clear Inbox",
                      completed := false, type := "daily", dateAdded := today } ],
                dailyRoutine := DEFAULT_DAILY_TASKS,
                settings := defaultSettings,
                lastOpenDate := some today } ] }) = _
    rw [reconcile, checkMidnightReset_noop _ _ rfl]
    refine congrArg Except.ok (ensureDailyTasks_noop_hasDaily _ _ ?_)
    rfl
  · decide

/-- Claim C7 counterexample: starting from a completed first-run
initialization (routine = the three non-empty defaults), three
`removeDailyTask` calls leave `dailyRoutine` empty — the non-emptiness
invariant is not preserved by every subsequent operation. -/
theorem routine_emptied_after_init :
    (init none "Mon Jan 01 2024"
        { state := initialState, gen := 0, saved := [] }).map
      (fun w => (removeDailyTask 0 (removeDailyTask 0
        (removeDailyTask 0 w))).state.dailyRoutine)
      = Except.ok [] := rfl

/-- Claim C7 amended: first-run initialization seeds the non-empty default
routine, and non-emptiness of `dailyRoutine` is preserved by reconciliation,
`addTask`, `toggleTask`, `updateDailyTask` and `addDailyTemplate` — but not
by `removeDailyTask`, which may delete the last remaining template (deleting
every template is permitted behaviour, after which the next reset produces an
empty task list). -/
theorem routine_nonempty_amended
    (w : W) (today text : String) (i : Ident) (idx g : Nat)
    (h : w.state.dailyRoutine ≠ []) :
    (∀ w', init none today { state := initialState, gen := g, saved := [] }
        = Except.ok w' → w'.state.dailyRoutine ≠ []) ∧
    (reconcile today w).state.dailyRoutine ≠ [] ∧
    (addTask text today w).state.dailyRoutine ≠ [] ∧
    (toggleTask i w).state.dailyRoutine ≠ [] ∧
    (∀ w', updateDailyTask idx text w = Except.ok w' →
        w'.state.dailyRoutine ≠ []) ∧
    (addDailyTemplate w).state.dailyRoutine ≠ [] := by
  refine ⟨?_, ?_, ?_, ?_, ?_, ?_⟩
  · intro w' hw
    have hw2 : Except.ok (reconcile today
        (saveState
          { state :=
              { tasks := (instantiateAll DEFAULT_DAILY_TASKS today g).1,
                dailyRoutine := DEFAULT_DAILY_TASKS,
                settings := defaultSettings,
                lastOpenDate := some today },
            gen := (instantiateAll DEFAULT_DAILY_TASKS today g).2,
            saved := [] })) = Except.ok w' := hw
    have heq := Except.ok.inj hw2
    rw [← heq, reconcile_dailyRoutine]
    show DEFAULT_DAILY_TASKS ≠ []
    decide
  · rw [reconcile_dailyRoutine]
    exact h
  · unfold addTask
    split
    · exact h
    · exact h
  · unfold toggleTask
    split
    · exact h
    · exact h
  · intro w' hw
    unfold updateDailyTask at hw
    by_cases ht : jsTrim text = ""
    · rw [if_pos ht] at hw
      cases hw
      exact h
    · rw [if_neg ht] at hw
      cases hg : w.state.dailyRoutine.get? idx with
      | none =>
          rw [hg] at hw
          simp at hw
      | some t =>
          rw [hg] at hw
          cases hw
          show (w.state.dailyRoutine.set idx { t with text := jsTrim text }) ≠ []
          intro hnil
          have hlen := congrArg List.length hnil
          rw [List.length_set] at hlen
          simp at hlen
          exact h hlen
  · show w.state.dailyRoutine
        ++ [{ id := Ident.gen w.gen, text := "", type := "daily" }] ≠ []
    simp

/-- Witness for C7's amended theorem at the same-day world. -/
theorem routine_nonempty_amended_witness :
    exampleSameDayW.state.dailyRoutine ≠ [] ∧
    (reconcile "Tue Jan 02 2024" exampleSameDayW).state.dailyRoutine ≠ [] ∧
    (addDailyTemplate exampleSameDayW).state.dailyRoutine ≠ [] :=
  ⟨by decide,
   (routine_nonempty_amended exampleSameDayW "Tue Jan 02 2024" "Walk dog"
     (Ident.fixed "t1") 0 0 (by decide)).2.1,
   (routine_nonempty_amended exampleSameDayW "Tue Jan 02 2024" "Walk dog"
     (Ident.fixed "t1") 0 0 (by decide)).2.2.2.2.2⟩

end FocusTasks
